import Mathlib

/-!
Verification of the alert reconciliation webhook service (src/main.go).

The embedding models the POST /api/v1/webhooks/alertmanager handler
(src/main.go lines 142-207): for each alert of the decoded payload, in
order, it looks up an existing record by fingerprint, and either inserts
a new record (incrementing the new counter), updates status and ends-at
(incrementing the updated counter), or does nothing (incrementing the
duplicate counter).  Any database or serialization error makes the
handler respond with an error and return immediately, abandoning the
rest of the batch.

Database and serialization failures are injected through a FaultModel
indexed by the position of the event inside the batch; the all-clear
fault model `happyFM` is the failure-free run.  Timestamps are Nat.
The model additionally records, in order, the classification-counter
increments performed (the `trace`) and the store operations issued
(the `ops`); both are direct observations of the code's execution order.
-/

/-- Mirrors the anonymous struct elements of AlertWebhook.Alerts
(src/main.go lines 44-53): one incoming alert event. -/
structure AlertEvent where
  status : String
  labels : List (String × String)
  annotations : List (String × String)
  startsAt : Nat
  endsAt : Nat
  fingerprint : String
  deriving Repr, DecidableEq

/-- Mirrors the Alert gorm model (src/main.go lines 32-41): the persisted
record.  Labels and annotations are stored in JSON-serialized form. -/
structure Alert where
  id : Nat
  fingerprint : String
  status : String
  labels : String
  annotations : String
  startsAt : Nat
  endsAt : Nat
  createdAt : Nat
  deriving Repr, DecidableEq

/-- Models json.Marshal of a map[string]string: an opaque, deterministic
serialization.  The handler never inspects the serialized content. -/
def marshalMap (m : List (String × String)) : String :=
  "\x7b" ++ String.intercalate "," (m.map (fun p => p.1 ++ ":" ++ p.2)) ++ "\x7d"

/-- The database table of Alert records plus the primary-key sequence. -/
structure Store where
  nextId : Nat
  records : List Alert
  deriving Repr, DecidableEq

/-- The four Prometheus counters (src/main.go lines 56-81). -/
structure Counters where
  total : Nat
  newTotal : Nat
  duplicateTotal : Nat
  updatedTotal : Nat
  deriving Repr, DecidableEq

/-- A store operation issued by the handler, as logged by the model. -/
inductive StoreOp where
  | lookup (fp : String)
  | insert (a : Alert)
  | update (id : Nat) (status : String) (endsAt : Nat)
  deriving Repr, DecidableEq

/-- The classification recorded when the corresponding counter is
incremented. -/
inductive Outcome where
  | new
  | updated
  | duplicate
  deriving Repr, DecidableEq

/-- Injected environment failures, indexed by the event's position in the
batch: a gorm lookup error other than ErrRecordNotFound, a json.Marshal
failure for labels or annotations, a db.Create failure (for example the
unique-index violation of the concurrent first-insert race), and a
db.Updates failure.  `none` / `false` means the operation succeeds. -/
structure FaultModel where
  lookupErr : Nat → Option String
  labelsMarshalErr : Nat → Bool
  annotationsMarshalErr : Nat → Bool
  insertErr : Nat → Option String
  updateErr : Nat → Option String

/-- The failure-free environment. -/
def happyFM : FaultModel :=
  { lookupErr := fun _ => none
    labelsMarshalErr := fun _ => false
    annotationsMarshalErr := fun _ => false
    insertErr := fun _ => none
    updateErr := fun _ => none }

/-- The handler's HTTP response: 200 with status "alerts processed", or
500 with an error message (the 400 bind failure happens before this
model begins). -/
inductive HandlerResult where
  | ok
  | serverError (msg : String)
  deriving Repr, DecidableEq

/-- Mutable state threaded through the handler loop, together with the
observation logs. -/
structure ProcState where
  store : Store
  counters : Counters
  trace : List Outcome
  ops : List StoreOp
  deriving Repr, DecidableEq

/-- db.Where("fingerprint = ?", fp).First(&existing) (src/main.go line
156): the first record, in primary-key order, whose fingerprint matches. -/
def lookupFP (store : Store) (fp : String) : Option Alert :=
  store.records.find? (fun a => a.fingerprint = fp)

/-- The new Alert record built for a first-seen event (src/main.go lines
172-180): gorm assigns the next primary key, CreatedAt is time.Now(). -/
def newAlertFor (store : Store) (now : Nat) (e : AlertEvent) : Alert :=
  { id := store.nextId
    fingerprint := e.fingerprint
    status := e.status
    labels := marshalMap e.labels
    annotations := marshalMap e.annotations
    startsAt := e.startsAt
    endsAt := e.endsAt
    createdAt := now }

/-- One iteration of the handler loop (src/main.go lines 153-204) for the
event at position `i` of the batch.  Returns the state reached and
`some msg` when the iteration hit an error (the code then responds with
500 and returns). -/
def processEvent (fm : FaultModel) (now : Nat) (i : Nat) (e : AlertEvent)
    (s : ProcState) : ProcState × Option String :=
  let s1 := { s with ops := s.ops ++ [StoreOp.lookup e.fingerprint] }
  match fm.lookupErr i with
  | some msg => (s1, some msg)
  | none =>
    match lookupFP s1.store e.fingerprint with
    | none =>
      if fm.labelsMarshalErr i then
        (s1, some "failed to marshal labels")
      else if fm.annotationsMarshalErr i then
        (s1, some "failed to marshal annotations")
      else
        let newAlert : Alert := newAlertFor s1.store now e
        let s2 := { s1 with ops := s1.ops ++ [StoreOp.insert newAlert] }
        match fm.insertErr i with
        | some msg => (s2, some msg)
        | none =>
          ({ s2 with
              store := { nextId := s2.store.nextId + 1
                         records := s2.store.records ++ [newAlert] }
              counters := { s2.counters with newTotal := s2.counters.newTotal + 1 }
              trace := s2.trace ++ [Outcome.new] }, none)
    | some existing =>
      if existing.status ≠ e.status then
        let s2 := { s1 with
          ops := s1.ops ++ [StoreOp.update existing.id e.status e.endsAt] }
        match fm.updateErr i with
        | some msg => (s2, some msg)
        | none =>
          ({ s2 with
              store := { s2.store with
                records := s2.store.records.map (fun a =>
                  if a.id = existing.id then
                    { a with status := e.status, endsAt := e.endsAt }
                  else a) }
              counters := { s2.counters with updatedTotal := s2.counters.updatedTotal + 1 }
              trace := s2.trace ++ [Outcome.updated] }, none)
      else
        ({ s1 with
            counters := { s1.counters with duplicateTotal := s1.counters.duplicateTotal + 1 }
            trace := s1.trace ++ [Outcome.duplicate] }, none)

/-- The handler's range loop over webhook.Alerts (src/main.go lines
153-204), starting at position `i`: stops with a 500 response at the
first failing event, otherwise finishes all events and responds 200. -/
def runLoop (fm : FaultModel) (now : Nat) (i : Nat) (s : ProcState) :
    List AlertEvent → HandlerResult × ProcState
  | [] => (HandlerResult.ok, s)
  | e :: rest =>
    match processEvent fm now i e s with
    | (s1, some msg) => (HandlerResult.serverError msg, s1)
    | (s1, none) => runLoop fm now (i + 1) s1 rest

/-- The whole handler body after a successful JSON bind (src/main.go
lines 149-206): add the batch size to the received counter, then process
each alert in order. -/
def handleWebhook (fm : FaultModel) (now : Nat) (events : List AlertEvent)
    (store : Store) (counters : Counters) : HandlerResult × ProcState :=
  runLoop fm now 0
    { store := store
      counters := { counters with total := counters.total + events.length }
      trace := []
      ops := [] }
    events

/-- Fingerprints are pairwise distinct across the stored records (the
gorm uniqueIndex on Alert.Fingerprint, src/main.go line 34). -/
def Store.UniqueFP (store : Store) : Prop :=
  store.records.Pairwise (fun a b => a.fingerprint ≠ b.fingerprint)

instance (store : Store) : Decidable store.UniqueFP := by
  unfold Store.UniqueFP
  infer_instance

/-- The empty database. -/
def emptyStore : Store := { nextId := 1, records := [] }

/-- All counters at zero. -/
def zeroCounters : Counters :=
  { total := 0, newTotal := 0, duplicateTotal := 0, updatedTotal := 0 }

/-! Concrete fixtures used by the closed theorems. -/

/-- A firing alert event with fingerprint "fpA". -/
def evA : AlertEvent :=
  { status := "firing", labels := [("alertname", "HighCPU")],
    annotations := [("summary", "cpu high")], startsAt := 10, endsAt := 0,
    fingerprint := "fpA" }

/-- A firing alert event with fingerprint "fpB". -/
def evB : AlertEvent :=
  { status := "firing", labels := [], annotations := [], startsAt := 20,
    endsAt := 0, fingerprint := "fpB" }

/-- An event whose fingerprint is empty (the spec calls it invalid). -/
def evNoFP : AlertEvent :=
  { status := "firing", labels := [], annotations := [], startsAt := 15,
    endsAt := 0, fingerprint := "" }

/-- A resolved event for fingerprint "fpA" with a nonzero ends-at. -/
def evARes : AlertEvent :=
  { status := "resolved", labels := [("alertname", "HighCPU")],
    annotations := [], startsAt := 10, endsAt := 99, fingerprint := "fpA" }

/-- The Postgres message for a unique-index violation. -/
def dupKeyMsg : String :=
  "ERROR: duplicate key value violates unique constraint (SQLSTATE 23505)"

/-- Environment in which the db.Create call of the first batch event fails
with a duplicate-key error (the concurrent first-insert race). -/
def insertFailAt0 : FaultModel :=
  { happyFM with insertErr := fun i => if i = 0 then some dupKeyMsg else none }

/-- The processing state at the start of a handler call on the empty
database with zeroed counters and a batch of n events. -/
def startState (n : Nat) : ProcState :=
  { store := emptyStore
    counters := { zeroCounters with total := zeroCounters.total + n }
    trace := []
    ops := [] }
/-- The immutable columns agree: everything except status and ends-at. -/
def Alert.ImmutableEq (r r' : Alert) : Prop :=
  r'.id = r.id ∧ r'.fingerprint = r.fingerprint ∧ r'.labels = r.labels ∧
  r'.annotations = r.annotations ∧ r'.startsAt = r.startsAt ∧ r'.createdAt = r.createdAt

lemma Alert.immutableEq_refl (r : Alert) : Alert.ImmutableEq r r :=
  ⟨rfl, rfl, rfl, rfl, rfl, rfl⟩

lemma Alert.immutableEq_trans {a b c : Alert} (h1 : Alert.ImmutableEq a b)
    (h2 : Alert.ImmutableEq b c) : Alert.ImmutableEq a c := by
  obtain ⟨e1, e2, e3, e4, e5, e6⟩ := h1
  obtain ⟨f1, f2, f3, f4, f5, f6⟩ := h2
  exact ⟨f1.trans e1, f2.trans e2, f3.trans e3, f4.trans e4, f5.trans e5, f6.trans e6⟩

lemma processEvent_spec (fm : FaultModel) (now i : Nat) (e : AlertEvent) (s : ProcState) :
    (processEvent fm now i e s).1.counters.total = s.counters.total ∧
    (∃ t, (processEvent fm now i e s).1.trace = s.trace ++ t ∧
      ((processEvent fm now i e s).2 = none → t.length = 1) ∧
      (∀ msg, (processEvent fm now i e s).2 = some msg → t = []) ∧
      (processEvent fm now i e s).1.counters.newTotal
        = s.counters.newTotal + t.count Outcome.new ∧
      (processEvent fm now i e s).1.counters.duplicateTotal
        = s.counters.duplicateTotal + t.count Outcome.duplicate ∧
      (processEvent fm now i e s).1.counters.updatedTotal
        = s.counters.updatedTotal + t.count Outcome.updated ∧
      (processEvent fm now i e s).1.store.records.length
        = s.store.records.length + t.count Outcome.new) ∧
    ((processEvent fm now i e s).1.store = s.store ∨
      (∃ a, lookupFP s.store e.fingerprint = none ∧ a.fingerprint = e.fingerprint ∧
        (processEvent fm now i e s).1.store.records = s.store.records ++ [a]) ∨
      (∃ ex, lookupFP s.store e.fingerprint = some ex ∧
        (processEvent fm now i e s).1.store.records = s.store.records.map (fun a =>
          if a.id = ex.id then { a with status := e.status, endsAt := e.endsAt } else a))) := by
  rcases hl : fm.lookupErr i with _ | msg
  · rcases hf : lookupFP s.store e.fingerprint with _ | ex
    · rcases hb1 : fm.labelsMarshalErr i with _ | _
      · rcases hb2 : fm.annotationsMarshalErr i with _ | _
        · rcases hi : fm.insertErr i with _ | msg
          · refine ⟨?_, ⟨[Outcome.new], ?_, ?_, ?_, ?_, ?_, ?_, ?_⟩, ?_⟩ <;>
              simp [processEvent, hl, hf, hb1, hb2, hi, newAlertFor]
          · refine ⟨?_, ⟨[], ?_, ?_, ?_, ?_, ?_, ?_, ?_⟩, ?_⟩ <;>
              simp [processEvent, hl, hf, hb1, hb2, hi]
        · refine ⟨?_, ⟨[], ?_, ?_, ?_, ?_, ?_, ?_, ?_⟩, ?_⟩ <;>
            simp [processEvent, hl, hf, hb1, hb2]
      · refine ⟨?_, ⟨[], ?_, ?_, ?_, ?_, ?_, ?_, ?_⟩, ?_⟩ <;>
          simp [processEvent, hl, hf, hb1]
    · by_cases hs : ex.status = e.status
      · refine ⟨?_, ⟨[Outcome.duplicate], ?_, ?_, ?_, ?_, ?_, ?_, ?_⟩, ?_⟩ <;>
          simp [processEvent, hl, hf, hs]
      · rcases hu : fm.updateErr i with _ | msg
        · refine ⟨?_, ⟨[Outcome.updated], ?_, ?_, ?_, ?_, ?_, ?_, ?_⟩, ?_⟩ <;>
            simp [processEvent, hl, hf, hs, hu]
        · refine ⟨?_, ⟨[], ?_, ?_, ?_, ?_, ?_, ?_, ?_⟩, ?_⟩ <;>
            simp [processEvent, hl, hf, hs, hu]
  · refine ⟨?_, ⟨[], ?_, ?_, ?_, ?_, ?_, ?_, ?_⟩, ?_⟩ <;>
      simp [processEvent, hl]

lemma runLoop_total (fm : FaultModel) (now : Nat) :
    ∀ (es : List AlertEvent) (i : Nat) (s : ProcState),
      (runLoop fm now i s es).2.counters.total = s.counters.total
  | [], _, _ => rfl
  | e :: rest, i, s => by
    have h := (processEvent_spec fm now i e s).1
    rcases hp : processEvent fm now i e s with ⟨s1, r⟩
    rw [hp] at h
    cases r with
    | none =>
      simp only [runLoop, hp]
      rw [runLoop_total fm now rest (i + 1) s1]
      exact h
    | some msg =>
      simp only [runLoop, hp]
      exact h

lemma runLoop_spec (fm : FaultModel) (now : Nat) :
    ∀ (es : List AlertEvent) (i : Nat) (s : ProcState),
      ∃ t, (runLoop fm now i s es).2.trace = s.trace ++ t ∧
        t.length ≤ es.length ∧
        ((runLoop fm now i s es).1 = HandlerResult.ok → t.length = es.length) ∧
        (runLoop fm now i s es).2.counters.newTotal
          = s.counters.newTotal + t.count Outcome.new ∧
        (runLoop fm now i s es).2.counters.duplicateTotal
          = s.counters.duplicateTotal + t.count Outcome.duplicate ∧
        (runLoop fm now i s es).2.counters.updatedTotal
          = s.counters.updatedTotal + t.count Outcome.updated ∧
        (runLoop fm now i s es).2.store.records.length
          = s.store.records.length + t.count Outcome.new
  | [], _, s => ⟨[], by simp [runLoop]⟩
  | e :: rest, i, s => by
    obtain ⟨-, ⟨t0, htr, hok, herr, hnew, hdup, hupd, hlen⟩, -⟩ :=
      processEvent_spec fm now i e s
    rcases hp : processEvent fm now i e s with ⟨s1, r⟩
    rw [hp] at htr hok herr hnew hdup hupd hlen
    cases r with
    | some msg =>
      have ht0 : t0 = [] := herr msg rfl
      subst ht0
      have hrl : runLoop fm now i s (e :: rest) = (HandlerResult.serverError msg, s1) := by
        simp [runLoop, hp]
      refine ⟨[], ?_, ?_, ?_, ?_, ?_, ?_, ?_⟩ <;> simp [hrl] <;> simp_all
    | none =>
      have ht0 : t0.length = 1 := hok rfl
      obtain ⟨t1, htr1, hle1, hok1, hnew1, hdup1, hupd1, hlen1⟩ :=
        runLoop_spec fm now rest (i + 1) s1
      have hrl : runLoop fm now i s (e :: rest) = runLoop fm now (i + 1) s1 rest := by
        simp [runLoop, hp]
      refine ⟨t0 ++ t1, ?_, ?_, ?_, ?_, ?_, ?_, ?_⟩
      · rw [hrl, htr1, htr, List.append_assoc]
      · simp only [List.length_append, List.length_cons]
        omega
      · intro hk
        rw [hrl] at hk
        have h1 := hok1 hk
        simp only [List.length_append, List.length_cons]
        omega
      · rw [hrl, hnew1, hnew, List.count_append]
        omega
      · rw [hrl, hdup1, hdup, List.count_append]
        omega
      · rw [hrl, hupd1, hupd, List.count_append]
        omega
      · rw [hrl, hlen1, hlen, List.count_append]
        omega

lemma processEvent_store_inv (fm : FaultModel) (now i : Nat) (e : AlertEvent)
    (s : ProcState) (h : s.store.UniqueFP) :
    (processEvent fm now i e s).1.store.UniqueFP ∧
    (∀ r ∈ s.store.records,
      ∃ r' ∈ (processEvent fm now i e s).1.store.records, Alert.ImmutableEq r r') ∧
    (∀ r' ∈ (processEvent fm now i e s).1.store.records,
      (∃ r ∈ s.store.records, r.fingerprint = r'.fingerprint) ∨
        r'.fingerprint = e.fingerprint) := by
  obtain ⟨-, -, hcase⟩ := processEvent_spec fm now i e s
  rcases hcase with heq | ⟨a, hnone, hafp, happ⟩ | ⟨ex, hsome, hmap⟩
  · rw [Store.UniqueFP, heq]
    exact ⟨h, fun r hr => ⟨r, hr, Alert.immutableEq_refl r⟩,
      fun r' hr' => Or.inl ⟨r', hr', rfl⟩⟩
  · have hno : ∀ x ∈ s.store.records, x.fingerprint ≠ e.fingerprint := by
      have h0 := hnone
      unfold lookupFP at h0
      rw [List.find?_eq_none] at h0
      simpa using h0
    refine ⟨?_, ?_, ?_⟩
    · rw [Store.UniqueFP, happ, List.pairwise_append]
      refine ⟨h, List.pairwise_singleton _ _, ?_⟩
      intro x hx b hb
      rw [List.mem_singleton] at hb
      subst hb
      rw [hafp]
      exact hno x hx
    · intro r hr
      exact ⟨r, by rw [happ]; exact List.mem_append_left _ hr, Alert.immutableEq_refl r⟩
    · intro r' hr'
      rw [happ, List.mem_append] at hr'
      rcases hr' with hr' | hr'
      · exact Or.inl ⟨r', hr', rfl⟩
      · rw [List.mem_singleton] at hr'
        subst hr'
        exact Or.inr hafp
  · set f := fun a : Alert =>
      if a.id = ex.id then { a with status := e.status, endsAt := e.endsAt } else a with hfdef
    have hfp : ∀ x : Alert, (f x).fingerprint = x.fingerprint := by
      intro x
      by_cases hid : x.id = ex.id <;> simp [hfdef, hid]
    have him : ∀ x : Alert, Alert.ImmutableEq x (f x) := by
      intro x
      by_cases hid : x.id = ex.id <;>
        simp [Alert.ImmutableEq, hfdef, hid]
    refine ⟨?_, ?_, ?_⟩
    · rw [Store.UniqueFP, hmap, List.pairwise_map]
      refine h.imp ?_
      intro a b hab
      rw [hfp, hfp]
      exact hab
    · intro r hr
      exact ⟨f r, by rw [hmap]; exact List.mem_map_of_mem f hr, him r⟩
    · intro r' hr'
      rw [hmap, List.mem_map] at hr'
      obtain ⟨x, hx, hxr⟩ := hr'
      refine Or.inl ⟨x, hx, ?_⟩
      rw [← hxr, hfp]

lemma runLoop_store_inv (fm : FaultModel) (now : Nat) :
    ∀ (es : List AlertEvent) (i : Nat) (s : ProcState), s.store.UniqueFP →
      (runLoop fm now i s es).2.store.UniqueFP ∧
      (∀ r ∈ s.store.records,
        ∃ r' ∈ (runLoop fm now i s es).2.store.records, Alert.ImmutableEq r r') ∧
      (∀ r' ∈ (runLoop fm now i s es).2.store.records,
        (∃ r ∈ s.store.records, r.fingerprint = r'.fingerprint) ∨
          ∃ e ∈ es, r'.fingerprint = e.fingerprint)
  | [], _, s, h =>
    ⟨h, fun r hr => ⟨r, hr, Alert.immutableEq_refl r⟩,
      fun r' hr' => Or.inl ⟨r', hr', rfl⟩⟩
  | e :: rest, i, s, h => by
    obtain ⟨hu1, hpre1, hnew1⟩ := processEvent_store_inv fm now i e s h
    rcases hp : processEvent fm now i e s with ⟨s1, r⟩
    rw [hp] at hu1 hpre1 hnew1
    cases r with
    | some msg =>
      have hrl : runLoop fm now i s (e :: rest) = (HandlerResult.serverError msg, s1) := by
        simp [runLoop, hp]
      rw [hrl]
      refine ⟨hu1, hpre1, ?_⟩
      intro r' hr'
      rcases hnew1 r' hr' with h1 | h1
      · exact Or.inl h1
      · exact Or.inr ⟨e, List.mem_cons_self e rest, h1⟩
    | none =>
      have hrl : runLoop fm now i s (e :: rest) = runLoop fm now (i + 1) s1 rest := by
        simp [runLoop, hp]
      rw [hrl]
      obtain ⟨hu2, hpre2, hnew2⟩ := runLoop_store_inv fm now rest (i + 1) s1 hu1
      refine ⟨hu2, ?_, ?_⟩
      · intro r hr
        obtain ⟨r1, hr1, he1⟩ := hpre1 r hr
        obtain ⟨r2, hr2, he2⟩ := hpre2 r1 hr1
        exact ⟨r2, hr2, Alert.immutableEq_trans he1 he2⟩
      · intro r' hr'
        rcases hnew2 r' hr' with ⟨r1, hr1, hfp1⟩ | ⟨e1, he1, hfp1⟩
        · rcases hnew1 r1 hr1 with ⟨r0, hr0, hfp0⟩ | hfp0
          · exact Or.inl ⟨r0, hr0, hfp0.trans hfp1⟩
          · exact Or.inr ⟨e, List.mem_cons_self e rest, hfp1 ▸ hfp0⟩
        · exact Or.inr ⟨e1, List.mem_cons_of_mem e he1, hfp1⟩
lemma handle_single_new (now : Nat) (e : AlertEvent) (store : Store) (counters : Counters)
    (h : lookupFP store e.fingerprint = none) :
    handleWebhook happyFM now [e] store counters =
      (HandlerResult.ok,
       { store := { nextId := store.nextId + 1
                    records := store.records ++ [newAlertFor store now e] }
         counters := { total := counters.total + 1
                       newTotal := counters.newTotal + 1
                       duplicateTotal := counters.duplicateTotal
                       updatedTotal := counters.updatedTotal }
         trace := [Outcome.new]
         ops := [StoreOp.lookup e.fingerprint,
                 StoreOp.insert (newAlertFor store now e)] }) := by
  simp [handleWebhook, runLoop, processEvent, happyFM, h]

lemma handle_single_duplicate (now : Nat) (e : AlertEvent) (store : Store)
    (counters : Counters) (ex : Alert) (h : lookupFP store e.fingerprint = some ex)
    (hs : ex.status = e.status) :
    handleWebhook happyFM now [e] store counters =
      (HandlerResult.ok,
       { store := store
         counters := { total := counters.total + 1
                       newTotal := counters.newTotal
                       duplicateTotal := counters.duplicateTotal + 1
                       updatedTotal := counters.updatedTotal }
         trace := [Outcome.duplicate]
         ops := [StoreOp.lookup e.fingerprint] }) := by
  simp [handleWebhook, runLoop, processEvent, happyFM, h, hs]

lemma handle_single_update (now : Nat) (e : AlertEvent) (store : Store)
    (counters : Counters) (ex : Alert) (h : lookupFP store e.fingerprint = some ex)
    (hs : ex.status ≠ e.status) :
    handleWebhook happyFM now [e] store counters =
      (HandlerResult.ok,
       { store := { nextId := store.nextId
                    records := store.records.map (fun a =>
                      if a.id = ex.id then
                        { a with status := e.status, endsAt := e.endsAt }
                      else a) }
         counters := { total := counters.total + 1
                       newTotal := counters.newTotal
                       duplicateTotal := counters.duplicateTotal
                       updatedTotal := counters.updatedTotal + 1 }
         trace := [Outcome.updated]
         ops := [StoreOp.lookup e.fingerprint,
                 StoreOp.update ex.id e.status e.endsAt] }) := by
  simp [handleWebhook, runLoop, processEvent, happyFM, h, hs]

lemma lookupFP_append_new (store : Store) (now : Nat) (e : AlertEvent) (nid : Nat)
    (h : lookupFP store e.fingerprint = none) :
    lookupFP { nextId := nid, records := store.records ++ [newAlertFor store now e] }
        e.fingerprint
      = some (newAlertFor store now e) := by
  have h' : store.records.find? (fun a => a.fingerprint = e.fingerprint) = none := h
  unfold lookupFP
  rw [List.find?_append, h']
  simp [newAlertFor]

lemma countP_fp_zero (store : Store) (fp : String)
    (h : lookupFP store fp = none) :
    store.records.countP (fun a => a.fingerprint = fp) = 0 := by
  have h' : store.records.find? (fun a => a.fingerprint = fp) = none := h
  rw [List.find?_eq_none] at h'
  rw [List.countP_eq_zero]
  exact h'

/-- Refutation of claim C1 at a concrete input: with a batch of two events on an empty database, a duplicate-key failure of the first event's insert makes the handler return a 500; the second event is never processed (no record, no outcome), so the failure is batch-fatal, not per-event. -/
theorem c1_counterexample_batch_aborted :
    (handleWebhook insertFailAt0 0 [evA, evB] emptyStore zeroCounters).1
      = HandlerResult.serverError dupKeyMsg ∧
    (handleWebhook insertFailAt0 0 [evA, evB] emptyStore zeroCounters).2.store.records = [] ∧
    (handleWebhook insertFailAt0 0 [evA, evB] emptyStore zeroCounters).2.trace = [] :=
  ⟨rfl, rfl, rfl⟩

/-- Claim C1 (amended): a persistence failure for one event does not leave the batch processing per-event; the handler aborts the whole batch at the first failing event, returning a 500 with that error, and the state stays exactly as the failing iteration left it (later events are abandoned, earlier events keep their effects). -/
theorem event_failure_aborts_batch (fm : FaultModel) (now i : Nat) (e : AlertEvent)
    (rest : List AlertEvent) (s s1 : ProcState) (msg : String)
    (h : processEvent fm now i e s = (s1, some msg)) :
    runLoop fm now i s (e :: rest) = (HandlerResult.serverError msg, s1) := by
  simp [runLoop, h]

theorem event_failure_aborts_batch_witness :
    processEvent insertFailAt0 0 0 evA (startState 2)
      = ((processEvent insertFailAt0 0 0 evA (startState 2)).1, some dupKeyMsg) ∧
    runLoop insertFailAt0 0 0 (startState 2) [evA, evB]
      = (HandlerResult.serverError dupKeyMsg,
         (processEvent insertFailAt0 0 0 evA (startState 2)).1) :=
  ⟨rfl, event_failure_aborts_batch insertFailAt0 0 0 evA [evB] (startState 2) _ dupKeyMsg rfl⟩

/-- Refutation of claim C2 at a concrete input: the batch [validEvent1, invalidEvent (empty fingerprint), validEvent2] on an empty database persists all three events, including a record whose fingerprint is empty, reports success and three New outcomes, and no validation error occurs anywhere. -/
theorem c2_counterexample_empty_fingerprint_accepted :
    (handleWebhook happyFM 7 [evA, evNoFP, evB] emptyStore zeroCounters).1 = HandlerResult.ok ∧
    (handleWebhook happyFM 7 [evA, evNoFP, evB] emptyStore zeroCounters).2.store.records.length = 3 ∧
    ((handleWebhook happyFM 7 [evA, evNoFP, evB] emptyStore zeroCounters).2.store.records.countP
        (fun a => a.fingerprint = "")) = 1 ∧
    (handleWebhook happyFM 7 [evA, evNoFP, evB] emptyStore zeroCounters).2.trace
      = [Outcome.new, Outcome.new, Outcome.new] :=
  ⟨rfl, rfl, by decide, rfl⟩

/-- Claim C2 (amended): the handler performs no fingerprint validation. An event with an empty fingerprint is processed like any other: on a store with no empty-fingerprint record it is inserted as a new record (with fingerprint "") and classified New, with no error. -/
theorem empty_fingerprint_not_validated (now : Nat) (e : AlertEvent)
    (store : Store) (counters : Counters) (hfp : e.fingerprint = "")
    (h : lookupFP store "" = none) :
    (handleWebhook happyFM now [e] store counters).1 = HandlerResult.ok ∧
    (handleWebhook happyFM now [e] store counters).2.trace = [Outcome.new] ∧
    (handleWebhook happyFM now [e] store counters).2.store.records
      = store.records ++ [newAlertFor store now e] := by
  have h0 : lookupFP store e.fingerprint = none := by rw [hfp]; exact h
  rw [handle_single_new now e store counters h0]
  exact ⟨rfl, rfl, rfl⟩

theorem empty_fingerprint_not_validated_witness :
    evNoFP.fingerprint = "" ∧ lookupFP emptyStore "" = none ∧
    ((handleWebhook happyFM 7 [evNoFP] emptyStore zeroCounters).1 = HandlerResult.ok ∧
     (handleWebhook happyFM 7 [evNoFP] emptyStore zeroCounters).2.trace = [Outcome.new] ∧
     (handleWebhook happyFM 7 [evNoFP] emptyStore zeroCounters).2.store.records
       = emptyStore.records ++ [newAlertFor emptyStore 7 evNoFP]) :=
  ⟨rfl, rfl, empty_fingerprint_not_validated 7 evNoFP emptyStore zeroCounters rfl rfl⟩

/-- Claim C3: idempotency of reconciliation. Reconciling the same unchanged event twice against a store that does not yet hold its fingerprint yields outcome New then Duplicate, leaves exactly one record with that fingerprint, and the second reconciliation performs no store mutation: the store is bit-for-bit unchanged and the only store operation issued is the lookup. -/
theorem reconcile_twice_idempotent (now1 now2 : Nat) (e : AlertEvent)
    (store : Store) (counters : Counters)
    (h : lookupFP store e.fingerprint = none) :
    (handleWebhook happyFM now1 [e] store counters).1 = HandlerResult.ok ∧
    (handleWebhook happyFM now1 [e] store counters).2.trace = [Outcome.new] ∧
    ((handleWebhook happyFM now1 [e] store counters).2.store.records.countP
        (fun a => a.fingerprint = e.fingerprint)) = 1 ∧
    (handleWebhook happyFM now2 [e]
        (handleWebhook happyFM now1 [e] store counters).2.store
        (handleWebhook happyFM now1 [e] store counters).2.counters).1
      = HandlerResult.ok ∧
    (handleWebhook happyFM now2 [e]
        (handleWebhook happyFM now1 [e] store counters).2.store
        (handleWebhook happyFM now1 [e] store counters).2.counters).2.trace
      = [Outcome.duplicate] ∧
    (handleWebhook happyFM now2 [e]
        (handleWebhook happyFM now1 [e] store counters).2.store
        (handleWebhook happyFM now1 [e] store counters).2.counters).2.store
      = (handleWebhook happyFM now1 [e] store counters).2.store ∧
    (handleWebhook happyFM now2 [e]
        (handleWebhook happyFM now1 [e] store counters).2.store
        (handleWebhook happyFM now1 [e] store counters).2.counters).2.ops
      = [StoreOp.lookup e.fingerprint] := by
  have h1 := handle_single_new now1 e store counters h
  have h2 : lookupFP
      { nextId := store.nextId + 1
        records := store.records ++ [newAlertFor store now1 e] } e.fingerprint
      = some (newAlertFor store now1 e) :=
    lookupFP_append_new store now1 e _ h
  have h3 := handle_single_duplicate now2 e
      { nextId := store.nextId + 1
        records := store.records ++ [newAlertFor store now1 e] }
      { total := counters.total + 1
        newTotal := counters.newTotal + 1
        duplicateTotal := counters.duplicateTotal
        updatedTotal := counters.updatedTotal }
      (newAlertFor store now1 e) h2 rfl
  rw [h1]
  dsimp only
  rw [h3]
  refine ⟨rfl, rfl, ?_, rfl, rfl, rfl, rfl⟩
  rw [List.countP_append, countP_fp_zero store e.fingerprint h]
  simp [newAlertFor]

theorem reconcile_twice_idempotent_witness :
    lookupFP emptyStore evA.fingerprint = none ∧
    ((handleWebhook happyFM 5 [evA] emptyStore zeroCounters).1 = HandlerResult.ok ∧
     (handleWebhook happyFM 5 [evA] emptyStore zeroCounters).2.trace = [Outcome.new] ∧
     ((handleWebhook happyFM 5 [evA] emptyStore zeroCounters).2.store.records.countP
         (fun a => a.fingerprint = evA.fingerprint)) = 1 ∧
     (handleWebhook happyFM 9 [evA]
         (handleWebhook happyFM 5 [evA] emptyStore zeroCounters).2.store
         (handleWebhook happyFM 5 [evA] emptyStore zeroCounters).2.counters).1
       = HandlerResult.ok ∧
     (handleWebhook happyFM 9 [evA]
         (handleWebhook happyFM 5 [evA] emptyStore zeroCounters).2.store
         (handleWebhook happyFM 5 [evA] emptyStore zeroCounters).2.counters).2.trace
       = [Outcome.duplicate] ∧
     (handleWebhook happyFM 9 [evA]
         (handleWebhook happyFM 5 [evA] emptyStore zeroCounters).2.store
         (handleWebhook happyFM 5 [evA] emptyStore zeroCounters).2.counters).2.store
       = (handleWebhook happyFM 5 [evA] emptyStore zeroCounters).2.store ∧
     (handleWebhook happyFM 9 [evA]
         (handleWebhook happyFM 5 [evA] emptyStore zeroCounters).2.store
         (handleWebhook happyFM 5 [evA] emptyStore zeroCounters).2.counters).2.ops
       = [StoreOp.lookup evA.fingerprint]) :=
  ⟨rfl, reconcile_twice_idempotent 5 9 evA emptyStore zeroCounters rfl⟩

/-- Claim C4: transition correctness. For one fingerprint, reconciling a "firing" event and then a "resolved" event yields New then Updated, and the persisted record afterwards has status "resolved", ends-at from the second event, and starts-at, labels, annotations and created-at still from the first event. -/
theorem firing_then_resolved_transition (now1 now2 : Nat) (e1 e2 : AlertEvent)
    (store : Store) (counters : Counters)
    (hfp : e2.fingerprint = e1.fingerprint)
    (hs1 : e1.status = "firing") (hs2 : e2.status = "resolved")
    (h : lookupFP store e1.fingerprint = none)
    (hid : ∀ a ∈ store.records, a.id < store.nextId) :
    (handleWebhook happyFM now1 [e1] store counters).1 = HandlerResult.ok ∧
    (handleWebhook happyFM now1 [e1] store counters).2.trace = [Outcome.new] ∧
    (handleWebhook happyFM now2 [e2]
        (handleWebhook happyFM now1 [e1] store counters).2.store
        (handleWebhook happyFM now1 [e1] store counters).2.counters).1
      = HandlerResult.ok ∧
    (handleWebhook happyFM now2 [e2]
        (handleWebhook happyFM now1 [e1] store counters).2.store
        (handleWebhook happyFM now1 [e1] store counters).2.counters).2.trace
      = [Outcome.updated] ∧
    lookupFP (handleWebhook happyFM now2 [e2]
        (handleWebhook happyFM now1 [e1] store counters).2.store
        (handleWebhook happyFM now1 [e1] store counters).2.counters).2.store
        e1.fingerprint
      = some { id := store.nextId
               fingerprint := e1.fingerprint
               status := "resolved"
               labels := marshalMap e1.labels
               annotations := marshalMap e1.annotations
               startsAt := e1.startsAt
               endsAt := e2.endsAt
               createdAt := now1 } := by
  have h1 := handle_single_new now1 e1 store counters h
  have h2 : lookupFP
      { nextId := store.nextId + 1
        records := store.records ++ [newAlertFor store now1 e1] } e2.fingerprint
      = some (newAlertFor store now1 e1) := by
    rw [hfp]
    exact lookupFP_append_new store now1 e1 _ h
  have hneq : (newAlertFor store now1 e1).status ≠ e2.status := by
    show e1.status ≠ e2.status
    rw [hs1, hs2]
    decide
  have h3 := handle_single_update now2 e2
      { nextId := store.nextId + 1
        records := store.records ++ [newAlertFor store now1 e1] }
      { total := counters.total + 1
        newTotal := counters.newTotal + 1
        duplicateTotal := counters.duplicateTotal
        updatedTotal := counters.updatedTotal }
      (newAlertFor store now1 e1) h2 hneq
  rw [h1]
  dsimp only
  rw [h3]
  refine ⟨rfl, rfl, rfl, rfl, ?_⟩
  dsimp only
  have hmap : store.records.map (fun a =>
      if a.id = (newAlertFor store now1 e1).id then
        { a with status := e2.status, endsAt := e2.endsAt }
      else a) = store.records := by
    conv_rhs => rw [← List.map_id store.records]
    refine List.map_congr_left ?_
    intro a ha
    have : a.id ≠ (newAlertFor store now1 e1).id := Nat.ne_of_lt (hid a ha)
    simp [this]
  have hrec : (store.records ++ [newAlertFor store now1 e1]).map (fun a =>
      if a.id = (newAlertFor store now1 e1).id then
        { a with status := e2.status, endsAt := e2.endsAt }
      else a)
      = store.records
        ++ [{ newAlertFor store now1 e1 with status := e2.status, endsAt := e2.endsAt }] := by
    rw [List.map_append, hmap]
    simp
  rw [hrec]
  have h4 : lookupFP
      { nextId := store.nextId + 1
        records := store.records
          ++ [{ newAlertFor store now1 e1 with status := e2.status, endsAt := e2.endsAt }] }
      e1.fingerprint
      = some { newAlertFor store now1 e1 with status := e2.status, endsAt := e2.endsAt } := by
    have h' : store.records.find? (fun a => a.fingerprint = e1.fingerprint) = none := h
    unfold lookupFP
    rw [List.find?_append, h']
    simp [newAlertFor]
  rw [h4, hs2]
  rfl

/-- Witness for the transition theorem at concrete inputs. -/
theorem firing_then_resolved_transition_witness :
    evARes.fingerprint = evA.fingerprint ∧ evA.status = "firing" ∧
    evARes.status = "resolved" ∧ lookupFP emptyStore evA.fingerprint = none ∧
    (∀ a ∈ emptyStore.records, a.id < emptyStore.nextId) ∧
    ((handleWebhook happyFM 5 [evA] emptyStore zeroCounters).1 = HandlerResult.ok ∧
     (handleWebhook happyFM 5 [evA] emptyStore zeroCounters).2.trace = [Outcome.new] ∧
     (handleWebhook happyFM 9 [evARes]
         (handleWebhook happyFM 5 [evA] emptyStore zeroCounters).2.store
         (handleWebhook happyFM 5 [evA] emptyStore zeroCounters).2.counters).1
       = HandlerResult.ok ∧
     (handleWebhook happyFM 9 [evARes]
         (handleWebhook happyFM 5 [evA] emptyStore zeroCounters).2.store
         (handleWebhook happyFM 5 [evA] emptyStore zeroCounters).2.counters).2.trace
       = [Outcome.updated] ∧
     lookupFP (handleWebhook happyFM 9 [evARes]
         (handleWebhook happyFM 5 [evA] emptyStore zeroCounters).2.store
         (handleWebhook happyFM 5 [evA] emptyStore zeroCounters).2.counters).2.store
         evA.fingerprint
       = some { id := emptyStore.nextId
                fingerprint := evA.fingerprint
                status := "resolved"
                labels := marshalMap evA.labels
                annotations := marshalMap evA.annotations
                startsAt := evA.startsAt
                endsAt := evARes.endsAt
                createdAt := 5 }) :=
  ⟨rfl, rfl, rfl, rfl, by simp [emptyStore],
    firing_then_resolved_transition 5 9 evA evARes emptyStore zeroCounters rfl rfl rfl rfl
      (by simp [emptyStore])⟩
/-- Claim C5: store invariants preserved by every reconciliation, under any injected faults: fingerprint uniqueness is preserved; every preexisting record survives with id, fingerprint, labels, annotations, starts-at and created-at untouched (only status and ends-at may change); and every record present afterwards carries a fingerprint that was either already in the store or belongs to an event of the batch (records are created only at first sight of a fingerprint). -/
theorem store_invariants_preserved (fm : FaultModel) (now : Nat)
    (events : List AlertEvent) (store : Store) (counters : Counters)
    (h : store.UniqueFP) :
    (handleWebhook fm now events store counters).2.store.UniqueFP ∧
    (∀ r ∈ store.records,
      ∃ r' ∈ (handleWebhook fm now events store counters).2.store.records,
        Alert.ImmutableEq r r') ∧
    (∀ r' ∈ (handleWebhook fm now events store counters).2.store.records,
      (∃ r ∈ store.records, r.fingerprint = r'.fingerprint) ∨
        ∃ e ∈ events, r'.fingerprint = e.fingerprint) := by
  unfold handleWebhook
  exact runLoop_store_inv fm now events 0 _ h

theorem store_invariants_preserved_witness :
    emptyStore.UniqueFP ∧
    ((handleWebhook happyFM 3 [evA] emptyStore zeroCounters).2.store.UniqueFP ∧
    (∀ r ∈ emptyStore.records,
      ∃ r' ∈ (handleWebhook happyFM 3 [evA] emptyStore zeroCounters).2.store.records,
        Alert.ImmutableEq r r') ∧
    (∀ r' ∈ (handleWebhook happyFM 3 [evA] emptyStore zeroCounters).2.store.records,
      (∃ r ∈ emptyStore.records, r.fingerprint = r'.fingerprint) ∨
        ∃ e ∈ [evA], r'.fingerprint = e.fingerprint)) :=
  ⟨by decide, store_invariants_preserved happyFM 3 [evA] emptyStore zeroCounters (by decide)⟩

/-- Refutation of claim C6 at a concrete input: when the insert fails with the duplicate-key error of the first-insert race, the handler issues no update (no retry), records no outcome for the event, and aborts the batch with a 500; it neither retries the event as an update nor surfaces a per-event Error outcome. -/
theorem c6_counterexample_duplicate_key_aborts :
    (handleWebhook insertFailAt0 0 [evA] emptyStore zeroCounters).1
      = HandlerResult.serverError dupKeyMsg ∧
    ((handleWebhook insertFailAt0 0 [evA] emptyStore zeroCounters).2.ops.countP
        (fun op => match op with | StoreOp.update _ _ _ => true | _ => false)) = 0 ∧
    (handleWebhook insertFailAt0 0 [evA] emptyStore zeroCounters).2.trace = [] ∧
    (handleWebhook insertFailAt0 0 [evA] emptyStore zeroCounters).2.store.records = [] :=
  ⟨rfl, by decide, rfl, rfl⟩

/-- Claim C6 (amended): an insert failure (such as DuplicateKeyError from the concurrent first-insert race) is not retried as an update and produces no per-event outcome; the handler aborts the whole batch with a 500 carrying the store error, so the failure is surfaced to the caller (the event is not silently dropped) but all subsequent events are abandoned too. -/
theorem insert_failure_aborts_without_retry (fm : FaultModel) (now i : Nat)
    (e : AlertEvent) (rest : List AlertEvent) (s : ProcState) (msg : String)
    (hl : fm.lookupErr i = none) (hb1 : fm.labelsMarshalErr i = false)
    (hb2 : fm.annotationsMarshalErr i = false) (hins : fm.insertErr i = some msg)
    (hf : lookupFP s.store e.fingerprint = none) :
    runLoop fm now i s (e :: rest)
      = (HandlerResult.serverError msg,
         { s with ops := s.ops ++ [StoreOp.lookup e.fingerprint,
                                   StoreOp.insert (newAlertFor s.store now e)] }) := by
  simp [runLoop, processEvent, hl, hf, hb1, hb2, hins]

theorem insert_failure_aborts_without_retry_witness :
    insertFailAt0.lookupErr 0 = none ∧ insertFailAt0.labelsMarshalErr 0 = false ∧
    insertFailAt0.annotationsMarshalErr 0 = false ∧
    insertFailAt0.insertErr 0 = some dupKeyMsg ∧
    lookupFP (startState 1).store evA.fingerprint = none ∧
    runLoop insertFailAt0 5 0 (startState 1) [evA]
      = (HandlerResult.serverError dupKeyMsg,
         { startState 1 with
            ops := (startState 1).ops ++ [StoreOp.lookup evA.fingerprint,
                     StoreOp.insert (newAlertFor (startState 1).store 5 evA)] }) :=
  ⟨rfl, rfl, rfl, rfl, rfl,
    insert_failure_aborts_without_retry insertFailAt0 5 0 evA [] (startState 1) dupKeyMsg
      rfl rfl rfl rfl rfl⟩

/-- Refutation of claim C7 at a concrete input: an event whose insert fails increments none of the classification counters, so it is not the case that exactly one of them is incremented for every event. -/
theorem c7_counterexample_no_counter_on_failure :
    (handleWebhook insertFailAt0 0 [evA] emptyStore zeroCounters).2.trace = [] ∧
    (handleWebhook insertFailAt0 0 [evA] emptyStore zeroCounters).2.counters.newTotal = 0 ∧
    (handleWebhook insertFailAt0 0 [evA] emptyStore zeroCounters).2.counters.duplicateTotal = 0 ∧
    (handleWebhook insertFailAt0 0 [evA] emptyStore zeroCounters).2.counters.updatedTotal = 0 :=
  ⟨rfl, rfl, rfl, rfl⟩

/-- Claim C7 (amended): each classification counter advances by exactly the number of recorded outcomes of its kind, each recorded after the store operation of its event; a fully successful batch records exactly one outcome per event, an aborted batch records none for the failing and later events; and the new-counter delta equals the number of records actually inserted, so a new increment implies the insert succeeded. -/
theorem counters_match_recorded_outcomes (fm : FaultModel) (now : Nat)
    (events : List AlertEvent) (store : Store) (counters : Counters) :
    (handleWebhook fm now events store counters).2.counters.newTotal
      = counters.newTotal
        + (handleWebhook fm now events store counters).2.trace.count Outcome.new ∧
    (handleWebhook fm now events store counters).2.counters.duplicateTotal
      = counters.duplicateTotal
        + (handleWebhook fm now events store counters).2.trace.count Outcome.duplicate ∧
    (handleWebhook fm now events store counters).2.counters.updatedTotal
      = counters.updatedTotal
        + (handleWebhook fm now events store counters).2.trace.count Outcome.updated ∧
    (handleWebhook fm now events store counters).2.trace.length ≤ events.length ∧
    ((handleWebhook fm now events store counters).1 = HandlerResult.ok →
      (handleWebhook fm now events store counters).2.trace.length = events.length) ∧
    (handleWebhook fm now events store counters).2.store.records.length
      = store.records.length
        + (handleWebhook fm now events store counters).2.trace.count Outcome.new := by
  obtain ⟨t, htr, hle, hok, hnew, hdup, hupd, hlen⟩ :=
    runLoop_spec fm now events 0
      { store := store
        counters := { counters with total := counters.total + events.length }
        trace := []
        ops := [] }
  simp only [List.nil_append] at htr
  unfold handleWebhook
  rw [htr]
  exact ⟨hnew, hdup, hupd, hle, hok, hlen⟩

/-- Refutation of claim C8 at a concrete input: for a two-event batch whose first insert fails, the handler returns a single error value and records zero per-event outcomes, not an ordered two-slot sequence with the error in the first slot. -/
theorem c8_counterexample_no_per_event_outcomes :
    (handleWebhook insertFailAt0 0 [evA, evB] emptyStore zeroCounters).2.trace.length = 0 ∧
    (handleWebhook insertFailAt0 0 [evA, evB] emptyStore zeroCounters).1
      = HandlerResult.serverError dupKeyMsg :=
  ⟨rfl, rfl⟩
/-- Claim C8 (amended): the handler returns a single status value (200 success or one 500 error), not a per-event outcome sequence; per-event outcomes are observable only as the ordered trace of counter increments, which covers every event exactly once when the whole batch succeeds and stops at the first failure otherwise. -/
theorem result_is_single_status (fm : FaultModel) (now : Nat)
    (events : List AlertEvent) (store : Store) (counters : Counters) :
    ((handleWebhook fm now events store counters).1 = HandlerResult.ok ∨
      ∃ msg, (handleWebhook fm now events store counters).1
        = HandlerResult.serverError msg) ∧
    ((handleWebhook fm now events store counters).1 = HandlerResult.ok →
      (handleWebhook fm now events store counters).2.trace.length = events.length) ∧
    (handleWebhook fm now events store counters).2.trace.length ≤ events.length := by
  obtain ⟨t, htr, hle, hok, -, -, -, -⟩ :=
    runLoop_spec fm now events 0
      { store := store
        counters := { counters with total := counters.total + events.length }
        trace := []
        ops := [] }
  simp only [List.nil_append] at htr
  unfold handleWebhook
  rw [htr]
  refine ⟨?_, hok, hle⟩
  rcases hres : (runLoop fm now 0
      { store := store
        counters := { counters with total := counters.total + events.length }
        trace := []
        ops := [] } events).1 with _ | msg
  · exact Or.inl rfl
  · exact Or.inr ⟨msg, rfl⟩

/-- Claim C9: the received counter is incremented by the full number of events in the batch before any per-event processing, for every fault model, so every event of an accepted batch is counted as received even when its own processing fails or is never reached, and a received increment implies nothing about persistence. -/
theorem received_counter_adds_batch_size (fm : FaultModel) (now : Nat)
    (events : List AlertEvent) (store : Store) (counters : Counters) :
    (handleWebhook fm now events store counters).2.counters.total
      = counters.total + events.length := by
  unfold handleWebhook
  rw [runLoop_total]

/-- Claim C10: an accepted batch with zero events succeeds: the handler responds 200, performs no store lookup or mutation (the operation log is empty and the store unchanged), and increments no counter (the received counter grows by zero). -/
theorem empty_batch_is_noop (fm : FaultModel) (now : Nat)
    (store : Store) (counters : Counters) :
    handleWebhook fm now [] store counters
      = (HandlerResult.ok,
         { store := store, counters := counters, trace := [], ops := [] }) := by
  cases counters
  simp [handleWebhook, runLoop]

